import Mathlib

/-!
Verification of the real-time result distribution subsystem of the
eVotingSystem repository (`src/eVotingAPI/main.py`).

This file gives a shallow embedding of:

* the ledger (smart-contract) read interface consumed by the subsystem,
* the snapshot fetcher `get_election_results` (main.py lines 522-594),
* the `ConnectionManager` registry (lines 24-55),
* one iteration of the per-connection websocket loop `websocket_results`
  (lines 628-713), and
* one cycle of the background `broadcast_results` task (lines 717-751),

and proves the spec's testable properties about them.

Python `int` values coming from the contract are modelled as `Int`
(election ids may be negative in a request path) or `Nat` (the contract
counters, which are unsigned).  Exceptions raised by the ledger reads are
modelled by the `LedgerRead` sum, carrying the exception's description
string, since the Python code classifies failures by substring-matching
`str(e)`.  Wall-clock timestamps (`datetime.now()`) are modelled by an
abstract tick counter rendered to a string.
-/

namespace EVoting

/-- An opaque transport (websocket) handle.  The Python code only ever
uses handles as dictionary keys, so a `Nat` identity suffices. -/
abbrev Handle := Nat

/-- Outcome of a single ledger read: either a value, or a raised exception
carrying its description string (Python `str(e)`). -/
inductive LedgerRead (α : Type) where
  | ok : α → LedgerRead α
  | fail : String → LedgerRead α
deriving Repr, DecidableEq

/-- The raw election record returned by `contract.functions.getElection(id)`,
a tuple `(id, name, description, startTime, endTime, isActive, creator, ...)`.
The Python code guards `election_data[7]` and `election_data[8]` behind
length checks, so the two trailing fields are modelled as optional. -/
structure ElectionData where
  id : Int
  name : String
  description : String
  startTime : Int
  endTime : Int
  isActive : Bool
  creator : String
  totalVotesField : Option Int
  candidateCountField : Option Int
deriving Repr, DecidableEq

/-- The raw candidate tuple returned by
`contract.functions.getElectionResults(id)`:
`(id, name, party, voteCount, imageUrl?)`.  `candidate[4]` is guarded by a
length check, hence optional. -/
structure CandidateData where
  id : Int
  name : String
  party : String
  voteCount : Int
  imageUrlField : Option String
deriving Repr, DecidableEq

/-- The ledger query interface (section 6 of the spec) as consumed by
`get_election_results` and the websocket/broadcast loops:
`electionCount()`, `getElection(id)`, `getElectionStatus(id)`,
`getElectionResults(id)`.  `getElection` and `getElectionResults` may
raise, which the fetcher classifies by description. -/
structure Ledger where
  electionCount : Nat
  getElection : Int → LedgerRead ElectionData
  getElectionStatus : Int → String
  getElectionResults : Int → LedgerRead (List CandidateData)

/-- The pydantic `Election` model (main.py lines 148-158).
`status: Optional[str] = None`. -/
structure Election where
  id : Int
  name : String
  description : String
  startTime : Int
  endTime : Int
  isActive : Bool
  creator : String
  totalVotes : Int
  candidateCount : Int
  status : Option String
deriving Repr, DecidableEq

/-- The pydantic `Candidate` model (main.py lines 161-166). -/
structure Candidate where
  id : Int
  name : String
  party : String
  voteCount : Int
  imageUrl : String
deriving Repr, DecidableEq

/-- The observable result of one call to `get_election_results`: either an
`ElectionResults` body (election + candidates; the `lastUpdate` timestamp is
attached at serialization time by the callers), or a raised
`HTTPException(status_code, detail)`. -/
inductive FetchResult where
  | results (election : Election) (candidates : List Candidate)
  | httpError (code : Nat) (detail : String)
deriving Repr, DecidableEq

/-- Whether a fetch outcome is a raised `HTTPException`. -/
def FetchResult.isHttpError : FetchResult → Bool
  | .results _ _ => false
  | .httpError _ _ => true

/-- The `status` field of the election carried by a fetch outcome, when the
outcome is a body. -/
def FetchResult.statusField : FetchResult → Option (Option String)
  | .results e _ => some e.status
  | .httpError _ _ => none

/-- Whether `pat` is a prefix of `s`, on character lists. -/
def charsStartWith : List Char → List Char → Bool
  | [], _ => true
  | _ :: _, [] => false
  | a :: pat, b :: s => a == b && charsStartWith pat s

/-- Whether `pat` occurs as a contiguous run inside `s`, on character
lists. -/
def charsContain (s pat : List Char) : Bool :=
  match s with
  | [] => pat.isEmpty
  | _ :: rest => charsStartWith pat s || charsContain rest pat

/-- Python's substring test `pat in s`. -/
def containsSub (s pat : String) : Bool :=
  charsContain s.data pat.data

/-- The failure-description marker the code sniffs for an empty-collection
(numeric underflow) fault: `"underflow or overflow" in str(e)`. -/
def underflowMark : String := "underflow or overflow"

/-- Conversion performed at main.py lines 555-565: build the pydantic
`Election` from the raw tuple.  `status` is not passed, so it keeps its
`None` default. -/
def pyElection (ed : ElectionData) : Election :=
  { id := ed.id
    name := ed.name
    description := ed.description
    startTime := ed.startTime
    endTime := ed.endTime
    isActive := ed.isActive
    creator := ed.creator
    totalVotes := ed.totalVotesField.getD 0
    candidateCount := ed.candidateCountField.getD 0
    status := none }

/-- Conversion performed at main.py lines 541-547: build the pydantic
`Candidate` from the raw tuple. -/
def pyCandidate (cd : CandidateData) : Candidate :=
  { id := cd.id
    name := cd.name
    party := cd.party
    voteCount := cd.voteCount
    imageUrl := cd.imageUrlField.getD "" }

/-- The placeholder election built by the outer exception handler of
`get_election_results` (main.py lines 579-590). -/
def fallbackElection (election_id : Int) : Election :=
  { id := election_id
    name := "Election"
    description := ""
    startTime := 0
    endTime := 0
    isActive := false
    creator := ""
    totalVotes := 0
    candidateCount := 0
    status := none }

/-- `get_election_results` (main.py lines 522-594), the SnapshotFetcher.

* no contract → `HTTPException(503, "Smart contract not loaded")`;
* `election_id < 1 or election_id > electionCount()` →
  `HTTPException(404, f"Election {election_id} does not exist")`;
* `getElection` raises → the outer handler (lines 574-594): an
  underflow-marked description returns the zeroed fallback body, anything
  else re-raises as `HTTPException(500, str(e))`;
* `getElectionResults` raises → the inner handler (lines 548-553): both
  branches only print and fall through, leaving `candidates = []`;
* otherwise the populated election plus the mapped candidate list. -/
def get_election_results (contract : Option Ledger) (election_id : Int) :
    FetchResult :=
  match contract with
  | none => .httpError 503 "Smart contract not loaded"
  | some L =>
    if election_id < 1 ∨ election_id > (L.electionCount : Int) then
      .httpError 404 ("Election " ++ toString election_id ++ " does not exist")
    else
      match L.getElection election_id with
      | .fail e =>
        if containsSub e underflowMark then
          .results (fallbackElection election_id) []
        else
          .httpError 500 e
      | .ok ed =>
        let candidates : List Candidate :=
          match L.getElectionResults election_id with
          | .ok rows => rows.map pyCandidate
          | .fail e =>
            -- lines 548-553: the underflow and non-underflow branches both
            -- merely print; either way the loop body never ran, so the
            -- candidate list stays empty.
            if containsSub e underflowMark then [] else []
        .results (pyElection ed) candidates

/-! ## JSON payloads

A small JSON value type for the dictionaries the loops push over the
transport (`send_json`).  Object fields keep insertion order, like Python
dicts. -/

inductive Json where
  | str : String → Json
  | num : Int → Json
  | bool : Bool → Json
  | null : Json
  | arr : List Json → Json
  | obj : List (String × Json) → Json
deriving Repr

/-- Field lookup in a JSON object (`none` on non-objects / missing key). -/
def Json.get : Json → String → Option Json
  | .obj kvs, k => kvs.lookup k
  | _, _ => none

/-- Whether a JSON object has a field named `k`. -/
def Json.hasKey (j : Json) (k : String) : Bool :=
  (j.get k).isSome

/-- The abstract wall clock: `datetime.now().isoformat()` rendered from the
session/broadcaster tick counter.  The payload consumers in the claims never
inspect this string, only its presence. -/
def isoNow (tick : Nat) : String :=
  "t" ++ toString tick

/-- Serialization of the pydantic `Election` model (`results.dict()`), field
order as declared at main.py lines 148-158; `status = None` becomes JSON
null. -/
def electionJson (e : Election) : Json :=
  .obj [("id", .num e.id), ("name", .str e.name),
        ("description", .str e.description), ("startTime", .num e.startTime),
        ("endTime", .num e.endTime), ("isActive", .bool e.isActive),
        ("creator", .str e.creator), ("totalVotes", .num e.totalVotes),
        ("candidateCount", .num e.candidateCount),
        ("status", match e.status with | some s => .str s | none => .null)]

/-- Serialization of the pydantic `Candidate` model. -/
def candidateJson (c : Candidate) : Json :=
  .obj [("id", .num c.id), ("name", .str c.name), ("party", .str c.party),
        ("voteCount", .num c.voteCount), ("imageUrl", .str c.imageUrl)]

/-- `results.dict()` with `lastUpdate` replaced by its ISO string
(main.py lines 646-650 and 732-734). -/
def resultsJson (e : Election) (cs : List Candidate) (tick : Nat) : Json :=
  .obj [("election", electionJson e), ("candidates", .arr (cs.map candidateJson)),
        ("lastUpdate", .str (isoNow tick))]

/-- The error payload sent when the election does not exist
(main.py lines 680-683). -/
def notFoundJson (election_id : Int) : Json :=
  .obj [("error", .str ("Election " ++ toString election_id ++ " does not exist")),
        ("electionId", .num election_id)]

/-- The error payload sent when the contract is not loaded
(main.py lines 689-692). -/
def notLoadedJson (election_id : Int) : Json :=
  .obj [("error", .str "Contract not loaded"), ("electionId", .num election_id)]

/-- The synthesized placeholder (`empty_result`) payload of the websocket
loop's underflow exception branch (main.py lines 657-672): zeroed election
fields, empty candidates, and an informational note. -/
def emptyResultJson (election_id : Int) (tick : Nat) : Json :=
  .obj [("election",
          .obj [("id", .num election_id), ("name", .str "Loading..."),
                ("description", .str ""), ("startTime", .num 0),
                ("endTime", .num 0), ("isActive", .bool false),
                ("creator", .str ""), ("totalVotes", .num 0),
                ("candidateCount", .num 0)]),
        ("candidates", .arr []),
        ("lastUpdate", .str (isoNow tick)),
        ("info", .str "No candidates registered yet")]

/-! ## ConnectionManager (main.py lines 24-55)

`active_connections: Dict[WebSocket, bool]` is an insertion-ordered map; we
model it as an association list.  Transport send outcomes are an external
input, supplied as a `sendOk` predicate for the duration of one call. -/

structure ConnectionManager where
  active_connections : List (Handle × Bool)
deriving Repr, DecidableEq

/-- Dictionary lookup: the value bound to key `w`, if any. -/
def findVal (l : List (Handle × Bool)) (w : Handle) : Option Bool :=
  match l with
  | [] => none
  | (k, b) :: rest => if k = w then some b else findVal rest w

namespace ConnectionManager

/-- `websocket in self.active_connections`. -/
def member (m : ConnectionManager) (w : Handle) : Bool :=
  (findVal m.active_connections w).isSome

/-- `connect` (lines 28-30): accept, then `active_connections[websocket] =
True` — an in-place update when the key exists, an append otherwise. -/
def connect (m : ConnectionManager) (w : Handle) : ConnectionManager :=
  if m.member w then
    ⟨m.active_connections.map (fun p => if p.1 = w then (p.1, true) else p)⟩
  else
    ⟨m.active_connections ++ [(w, true)]⟩

/-- `disconnect` (lines 32-34): delete the key only when present. -/
def disconnect (m : ConnectionManager) (w : Handle) : ConnectionManager :=
  if m.member w then ⟨m.active_connections.filter (fun p => p.1 ≠ w)⟩ else m

/-- Result of one `send_personal_message` attempt: `none` when no write was
attempted (handle unregistered or flagged unwritable), `some true` when the
write succeeded, `some false` when it raised (and the handle was removed). -/
def send_personal_message (m : ConnectionManager) (w : Handle)
    (sendOk : Bool) : ConnectionManager × Option Bool :=
  if (findVal m.active_connections w).getD false then
    if sendOk then (m, some true) else (m.disconnect w, some false)
  else
    (m, none)

/-- `broadcast` (lines 44-55): iterate the registered handles, `send_json`
to each, collect the ones that raised, then disconnect those after the
loop.  Returns the new registry and the list of handles written to, in
iteration order. -/
def broadcast (m : ConnectionManager) (sendOk : Handle → Bool) :
    ConnectionManager × List Handle :=
  let scan := m.active_connections.foldl
    (fun (acc : List Handle × List Handle) p =>
      (acc.1 ++ [p.1], if sendOk p.1 then acc.2 else acc.2 ++ [p.1]))
    ([], [])
  (scan.2.foldl (fun mm w => mm.disconnect w) m, scan.1)

end ConnectionManager

/-! ## SubscriptionSession: the websocket loop (main.py lines 628-713)

One loop iteration of `websocket_results` is a step function on an explicit
session state.  Exceptions raised by the transport inside the loop body
(`WebSocketDisconnect`, `ConnectionClosedError`, or anything else caught at
lines 695-704) are environment input, supplied per iteration as a
`StepEvent`; a `normal` event carries whether `send_json` succeeds for any
write this iteration performs (each iteration writes at most once). -/

/-- Environment input for one iteration of the websocket loop. -/
inductive StepEvent where
  /-- No exception reaches the outer handlers; `sendOk` is the transport
  outcome of this iteration's `send_json`, if one happens. -/
  | normal (sendOk : Bool)
  /-- `WebSocketDisconnect` / `ConnectionClosedError` raised in the loop
  body (lines 695-700). -/
  | disconnect
  /-- Any other exception raised in the loop body (lines 701-704). -/
  | otherError
deriving Repr, DecidableEq

/-- Observable state of one `websocket_results` session.  `sent` records
the payloads this session delivered to its own socket, `fetches` the number
of `get_election_results` calls made, `sleeps` the `asyncio.sleep`
durations performed, and `tick` the abstract wall clock. -/
structure SessionState where
  manager : ConnectionManager
  alive : Bool
  exited : Bool
  sent : List Json
  fetches : Nat
  sleeps : List Rat
  tick : Nat
deriving Repr

/-- `str(HTTPException(code, detail))` as rendered by Starlette:
`f"{status_code}: {detail}"`. -/
def httpExceptionStr (code : Nat) (detail : String) : String :=
  toString code ++ ": " ++ detail

/-- Session state at the top of the loop: `await manager.connect(websocket)`
then `connection_alive = True` (main.py lines 630-631). -/
def initSession (m : ConnectionManager) (w : Handle) : SessionState :=
  { manager := m.connect w
    alive := true
    exited := false
    sent := []
    fetches := 0
    sleeps := []
    tick := 0 }

/-- One iteration of the `while connection_alive` loop of
`websocket_results` (main.py lines 634-707) for the session bound to
`election_id` over handle `w`.

* loop already exited, or `connection_alive` false → nothing happens;
* an exception event → `connection_alive = False; break` (no sleep);
* handle no longer registered → `break` (line 637-638, no sleep);
* no contract → send `{"error": "Contract not loaded", ...}`, then sleep;
* id out of `(0, electionCount]` → send the not-found error payload once,
  `connection_alive = False; break` (no sleep);
* in range → call `get_election_results`; a returned body is serialized
  and sent; a raised `HTTPException` lands in the handler at lines 654-677,
  which sends the placeholder only when `str(e)` carries the underflow
  marker and otherwise stays silent; then sleep 2.5. -/
def wsStep (contract : Option Ledger) (election_id : Int) (w : Handle)
    (ev : StepEvent) (s : SessionState) : SessionState :=
  if s.exited || !s.alive then
    { s with exited := true }
  else
    match ev with
    | .disconnect => { s with alive := false, exited := true }
    | .otherError => { s with alive := false, exited := true }
    | .normal sendOk =>
      if !(s.manager.member w) then
        { s with exited := true }
      else
        match contract with
        | some L =>
          if election_id > 0 ∧ election_id ≤ (L.electionCount : Int) then
            match get_election_results (some L) election_id with
            | .results e cs =>
              let payload := resultsJson e cs s.tick
              let sm := s.manager.send_personal_message w sendOk
              { s with manager := sm.1
                       sent := s.sent ++ (if sm.2 = some true then [payload] else [])
                       fetches := s.fetches + 1
                       sleeps := s.sleeps ++ [(2.5 : Rat)]
                       tick := s.tick + 1 }
            | .httpError code detail =>
              if containsSub (httpExceptionStr code detail) underflowMark then
                let payload := emptyResultJson election_id s.tick
                let sm := s.manager.send_personal_message w sendOk
                { s with manager := sm.1
                         sent := s.sent ++ (if sm.2 = some true then [payload] else [])
                         fetches := s.fetches + 1
                         sleeps := s.sleeps ++ [(2.5 : Rat)]
                         tick := s.tick + 1 }
              else
                { s with fetches := s.fetches + 1
                         sleeps := s.sleeps ++ [(2.5 : Rat)]
                         tick := s.tick + 1 }
          else
            let payload := notFoundJson election_id
            let sm := s.manager.send_personal_message w sendOk
            { s with manager := sm.1
                     sent := s.sent ++ (if sm.2 = some true then [payload] else [])
                     alive := false
                     exited := true
                     tick := s.tick + 1 }
        | none =>
          let payload := notLoadedJson election_id
          let sm := s.manager.send_personal_message w sendOk
          { s with manager := sm.1
                   sent := s.sent ++ (if sm.2 = some true then [payload] else [])
                   sleeps := s.sleeps ++ [(2.5 : Rat)]
                   tick := s.tick + 1 }

/-- Run the session loop through a list of per-iteration environment
events. -/
def wsRun (contract : Option Ledger) (election_id : Int) (w : Handle) :
    List StepEvent → SessionState → SessionState
  | [], s => s
  | ev :: evs, s =>
    wsRun contract election_id w evs (wsStep contract election_id w ev s)

/-- The `finally` block of `websocket_results` (main.py lines 711-713):
`manager.disconnect(websocket)` on every loop exit. -/
def wsFinally (w : Handle) (s : SessionState) : SessionState :=
  { s with manager := s.manager.disconnect w }

/-- A terminated session: no environment event makes the loop do anything
further — in particular no further payload is ever sent. -/
def neverStepsAgain (contract : Option Ledger) (election_id : Int)
    (w : Handle) (s : SessionState) : Prop :=
  ∀ ev, wsStep contract election_id w ev s = s

/-! ## Broadcaster: one cycle of `broadcast_results` (main.py lines 717-751)

`electionCount` is read once per cycle; each id in
`range(1, min(election_count + 1, 10))` is fetched, and every fetch that
returns a body (rather than raising) is broadcast as
`{"electionId": id, "results": ...}`.  A raised fetch is swallowed by the
handler at lines 740-744.  The cycle ends with `sleep(3)`; when the
contract is not loaded the cycle only performs `sleep(5)`. -/

structure CycleResult where
  /-- Election ids passed to `get_election_results`, in order. -/
  fetched : List Int
  /-- Payloads handed to `manager.broadcast`, in order. -/
  payloads : List Json
  manager : ConnectionManager
  /-- Duration of the trailing `asyncio.sleep`. -/
  sleep : Rat
deriving Repr

/-- One cycle of the `broadcast_results` background loop. -/
def broadcastCycle (contract : Option Ledger) (m : ConnectionManager)
    (sendOk : Handle → Bool) (tick : Nat) : CycleResult :=
  match contract with
  | none => ⟨[], [], m, 5⟩
  | some L =>
    if 0 < L.electionCount then
      let ids : List Int :=
        (List.range' 1 (min (L.electionCount + 1) 10 - 1)).map Int.ofNat
      let r := ids.foldl
        (fun (acc : List Json × ConnectionManager) eid =>
          match get_election_results (some L) eid with
          | .results e cs =>
            let p := Json.obj
              [("electionId", .num eid), ("results", resultsJson e cs tick)]
            (acc.1 ++ [p], (acc.2.broadcast sendOk).1)
          | .httpError _ _ => acc)
        ([], m)
      ⟨ids, r.1, r.2, 3⟩
    else
      ⟨[], [], m, 3⟩

/-- A concrete election record, as the contract would return it. -/
def demoElection (i : Int) : ElectionData :=
  { id := i
    name := "Board Election"
    description := "Annual board vote"
    startTime := 100
    endTime := 200
    isActive := true
    creator := "0xabc"
    totalVotesField := some 5
    candidateCountField := some 2 }

/-- Two concrete candidate rows. -/
def demoCandidates : List CandidateData :=
  [{ id := 1, name := "Alice", party := "A", voteCount := 3,
     imageUrlField := some "a.png" },
   { id := 2, name := "Bob", party := "B", voteCount := 2,
     imageUrlField := none }]

/-- A healthy ledger: every read succeeds. -/
def okLedger (count : Nat) : Ledger :=
  { electionCount := count
    getElection := fun i => .ok (demoElection i)
    getElectionStatus := fun _ => "Active"
    getElectionResults := fun _ => .ok demoCandidates }

/-- A ledger whose candidate read raises the empty-collection fault the
contract produces for an election with no candidates. -/
def emptyLedger (count : Nat) : Ledger :=
  { electionCount := count
    getElection := fun i => .ok (demoElection i)
    getElectionStatus := fun _ => "Active"
    getElectionResults := fun _ =>
      .fail "VM Exception: numeric underflow or overflow detected" }

/-- A ledger whose candidate read fails with an unrelated transport
error. -/
def badReadLedger (count : Nat) : Ledger :=
  { electionCount := count
    getElection := fun i => .ok (demoElection i)
    getElectionStatus := fun _ => "Active"
    getElectionResults := fun _ => .fail "connection refused by RPC node" }

/-- A concrete session state used by witnesses: one registered handle. -/
def demoSession : SessionState :=
  { manager := ⟨[(5, true)]⟩
    alive := true
    exited := false
    sent := []
    fetches := 0
    sleeps := []
    tick := 0 }

/-! ## Registry lemmas -/

theorem findVal_map_set (l : List (Handle × Bool)) (w : Handle)
    (h : (findVal l w).isSome) :
    findVal (l.map (fun p => if p.1 = w then (p.1, true) else p)) w =
      some true := by
  induction l with
  | nil => simp [findVal] at h
  | cons p l ih =>
    obtain ⟨k, b⟩ := p
    simp only [List.map_cons]
    by_cases hp : k = w
    · subst hp
      rw [if_pos rfl]
      simp [findVal]
    · rw [if_neg hp]
      simp only [findVal, if_neg hp] at h ⊢
      exact ih h

theorem findVal_append_self (l : List (Handle × Bool)) (w : Handle)
    (h : findVal l w = none) :
    findVal (l ++ [(w, true)]) w = some true := by
  induction l with
  | nil => simp [findVal]
  | cons p l ih =>
    obtain ⟨k, b⟩ := p
    by_cases hp : k = w
    · simp [findVal, if_pos hp] at h
    · simp only [findVal, if_neg hp] at h
      simp only [List.cons_append, findVal, if_neg hp]
      exact ih h

/-- After `connect`, the handle is registered and flagged writable. -/
theorem findVal_connect (m : ConnectionManager) (w : Handle) :
    findVal (m.connect w).active_connections w = some true := by
  unfold ConnectionManager.connect
  cases hl : findVal m.active_connections w with
  | none =>
    have hm : m.member w = false := by
      simp [ConnectionManager.member, hl]
    simp only [hm, Bool.false_eq_true, if_false]
    exact findVal_append_self _ _ hl
  | some b =>
    have hm : m.member w = true := by
      simp [ConnectionManager.member, hl]
    simp only [hm, if_true]
    exact findVal_map_set _ _ (by simp [hl])

theorem findVal_filter_out (l : List (Handle × Bool)) (w : Handle) :
    findVal (l.filter (fun p => p.1 ≠ w)) w = none := by
  induction l with
  | nil => rfl
  | cons p l ih =>
    obtain ⟨k, b⟩ := p
    by_cases hp : k = w
    · subst hp
      simpa [List.filter_cons] using ih
    · simp only [List.filter_cons]
      rw [if_pos (by simp [hp])]
      simp only [findVal, if_neg hp]
      exact ih

theorem filter_out_absent (l : List (Handle × Bool)) (w : Handle)
    (h : findVal l w = none) :
    l.filter (fun p => p.1 ≠ w) = l := by
  induction l with
  | nil => rfl
  | cons p l ih =>
    obtain ⟨k, b⟩ := p
    by_cases hp : k = w
    · simp [findVal, if_pos hp] at h
    · simp only [findVal, if_neg hp] at h
      simp only [List.filter_cons]
      rw [if_pos (by simp [hp])]
      rw [ih h]

/-- `disconnect` always leaves exactly the entries with other keys. -/
theorem disconnect_conns (m : ConnectionManager) (w : Handle) :
    (m.disconnect w).active_connections =
      m.active_connections.filter (fun p => p.1 ≠ w) := by
  unfold ConnectionManager.disconnect ConnectionManager.member
  cases hl : findVal m.active_connections w with
  | none => exact (filter_out_absent _ _ hl).symm
  | some b => rfl

theorem member_disconnect_self (m : ConnectionManager) (w : Handle) :
    (m.disconnect w).member w = false := by
  unfold ConnectionManager.member
  rw [disconnect_conns, findVal_filter_out]
  rfl

theorem disconnect_absent (m : ConnectionManager) (w : Handle)
    (h : m.member w = false) :
    m.disconnect w = m := by
  unfold ConnectionManager.disconnect
  simp [h]

theorem disconnect_idem (m : ConnectionManager) (w : Handle) :
    (m.disconnect w).disconnect w = m.disconnect w :=
  disconnect_absent _ _ (member_disconnect_self m w)

/-! ## Session-step lemmas -/

/-- A session whose loop has exited ignores every further event. -/
theorem wsStep_exited (contract : Option Ledger) (eid : Int) (w : Handle)
    (ev : StepEvent) (s : SessionState) (h : s.exited = true) :
    wsStep contract eid w ev s = s := by
  cases s with
  | mk m a e sent f sl t =>
    cases h
    rfl

theorem wsRun_exited (contract : Option Ledger) (eid : Int) (w : Handle)
    (evs : List StepEvent) (s : SessionState) (h : s.exited = true) :
    wsRun contract eid w evs s = s := by
  induction evs with
  | nil => rfl
  | cons ev evs ih =>
    show wsRun contract eid w evs (wsStep contract eid w ev s) = s
    rw [wsStep_exited _ _ _ _ _ h, ih]

/-- The inner exception handler of `get_election_results` (main.py lines
548-553) swallows every candidate-read failure: for an in-range election
whose record read succeeds, a failing candidate read — whatever its
description — yields the populated election with an empty candidate
list. -/
theorem fetch_swallows_candidate_failure (L : Ledger) (eid : Int)
    (ed : ElectionData) (msg : String)
    (h1 : 1 ≤ eid) (h2 : eid ≤ (L.electionCount : Int))
    (hel : L.getElection eid = .ok ed)
    (hcand : L.getElectionResults eid = .fail msg) :
    get_election_results (some L) eid = .results (pyElection ed) [] := by
  show (if eid < 1 ∨ eid > (L.electionCount : Int) then _ else _) = _
  rw [if_neg (by omega), hel, hcand]
  simp

/-- An out-of-range id makes `get_election_results` raise the 404. -/
theorem fetch_out_of_range (L : Ledger) (eid : Int)
    (h : eid < 1 ∨ eid > (L.electionCount : Int)) :
    get_election_results (some L) eid =
      .httpError 404 ("Election " ++ toString eid ++ " does not exist") := by
  show (if eid < 1 ∨ eid > (L.electionCount : Int) then _ else _) = _
  rw [if_pos h]

/-! ## Broadcast lemmas -/

/-- The iteration pass of `broadcast`: it visits every registered handle in
order and collects exactly the failing ones. -/
theorem broadcast_scan (l : List (Handle × Bool)) (sendOk : Handle → Bool)
    (a b : List Handle) :
    l.foldl
      (fun (acc : List Handle × List Handle) p =>
        (acc.1 ++ [p.1], if sendOk p.1 then acc.2 else acc.2 ++ [p.1]))
      (a, b) =
    (a ++ l.map Prod.fst,
     b ++ (l.filter (fun p => !sendOk p.1)).map Prod.fst) := by
  induction l generalizing a b with
  | nil => simp
  | cons p l ih =>
    simp only [List.foldl_cons, List.map_cons, List.filter_cons]
    rw [ih]
    by_cases hp : sendOk p.1
    · simp [hp]
    · simp [hp]

/-- Pruning a list of handles one `disconnect` at a time filters the
registry by non-membership in that list. -/
theorem foldl_disconnect_conns (ds : List Handle) (m : ConnectionManager) :
    (ds.foldl (fun mm w => mm.disconnect w) m).active_connections =
      m.active_connections.filter (fun p => decide (p.1 ∉ ds)) := by
  induction ds generalizing m with
  | nil => simp
  | cons d ds ih =>
    simp only [List.foldl_cons]
    rw [ih, disconnect_conns, List.filter_filter]
    apply List.filter_congr
    intro p _
    by_cases hd : p.1 = d
    · simp [hd]
    · by_cases hds : p.1 ∈ ds <;> simp [hd, hds]

/-! ## Healthy-session lemmas -/

/-- One loop iteration of a live, registered session with a healthy
transport and an out-of-range election id: the not-found error payload is
sent once, and the loop terminates without sleeping. -/
theorem wsStep_notfound (L : Ledger) (eid : Int) (w : Handle)
    (s : SessionState)
    (h : eid < 1 ∨ eid > (L.electionCount : Int))
    (hm : findVal s.manager.active_connections w = some true)
    (ha : s.alive = true) (he : s.exited = false) :
    wsStep (some L) eid w (.normal true) s =
      { s with sent := s.sent ++ [notFoundJson eid]
               alive := false
               exited := true
               tick := s.tick + 1 } := by
  have hmem : s.manager.member w = true := by
    simp [ConnectionManager.member, hm]
  have hsend :
      s.manager.send_personal_message w true = (s.manager, some true) := by
    unfold ConnectionManager.send_personal_message
    rw [hm]
    rfl
  unfold wsStep
  rw [he, ha]
  simp only [Bool.not_true, Bool.or_false, if_false]
  rw [hmem]
  simp only [Bool.not_true, Bool.false_eq_true, if_false]
  rw [if_neg (by omega), hsend]
  rfl

/-- C1 (amended): for every election id in `[1, count]` whose
candidate-list read fails, the fetcher returns an outcome with the
election fields populated from the prior election read and an empty
candidate sequence — never a TransientError — regardless of whether the
failure description indicates an empty-collection access; a non-underflow
description is only logged differently, not surfaced. -/
theorem C1_candidate_read_failure_swallowed (L : Ledger) (eid : Int)
    (ed : ElectionData) (msg : String)
    (h1 : 1 ≤ eid) (h2 : eid ≤ (L.electionCount : Int))
    (hel : L.getElection eid = .ok ed)
    (hcand : L.getElectionResults eid = .fail msg) :
    get_election_results (some L) eid = .results (pyElection ed) [] :=
  fetch_swallows_candidate_failure L eid ed msg h1 h2 hel hcand

/-- Witness for C1: election 1 of a 1-election ledger whose candidate read
raises the empty-collection fault. -/
theorem C1_witness :
    get_election_results (some (emptyLedger 1)) 1 =
      .results (pyElection (demoElection 1)) [] :=
  C1_candidate_read_failure_swallowed (emptyLedger 1) 1 (demoElection 1)
    "VM Exception: numeric underflow or overflow detected"
    (by decide) (by decide) rfl rfl

/-- Counterexample to C1 as stated: a candidate read failing with a
description that does NOT indicate an empty-collection access
(`"connection refused by RPC node"`) still produces the populated-election
body with an empty candidate list — not a TransientError carrying the raw
cause. -/
theorem C1_counterexample :
    get_election_results (some (badReadLedger 1)) 1 =
      .results (pyElection (demoElection 1)) [] ∧
    (get_election_results (some (badReadLedger 1)) 1).isHttpError = false ∧
    containsSub "connection refused by RPC node" underflowMark = false :=
  ⟨rfl, rfl, rfl⟩

/-- C2: for every election id outside `[1, count]`, the fetcher returns
the 404 not-found error, and a freshly subscribed session delivers exactly
one error payload `{"error": "Election <id> does not exist",
"electionId": <id>}`, terminates (alive false, loop exited), and never
sends again. -/
theorem C2_notfound_single_error (L : Ledger) (eid : Int)
    (m0 : ConnectionManager) (w : Handle)
    (h : eid < 1 ∨ eid > (L.electionCount : Int)) :
    get_election_results (some L) eid =
      .httpError 404 ("Election " ++ toString eid ++ " does not exist") ∧
    (wsStep (some L) eid w (.normal true) (initSession m0 w)).sent =
      [notFoundJson eid] ∧
    (wsStep (some L) eid w (.normal true) (initSession m0 w)).alive =
      false ∧
    (wsStep (some L) eid w (.normal true) (initSession m0 w)).exited =
      true ∧
    neverStepsAgain (some L) eid w
      (wsStep (some L) eid w (.normal true) (initSession m0 w)) := by
  have hstep :=
    wsStep_notfound L eid w (initSession m0 w) h (findVal_connect m0 w)
      rfl rfl
  refine ⟨fetch_out_of_range L eid h, ?_, ?_, ?_, ?_⟩
  · rw [hstep]
    rfl
  · rw [hstep]
  · rw [hstep]
  · exact fun ev => wsStep_exited _ _ _ _ _ (by rw [hstep])

/-- Witness for C2 at the spec's scenario: `count = 2`, election id 3. -/
theorem C2_witness :
    get_election_results (some (okLedger 2)) 3 =
      .httpError 404 "Election 3 does not exist" ∧
    (wsStep (some (okLedger 2)) 3 7 (.normal true) (initSession ⟨[]⟩ 7)).sent =
      [notFoundJson 3] ∧
    (wsStep (some (okLedger 2)) 3 7 (.normal true)
      (initSession ⟨[]⟩ 7)).alive = false ∧
    (wsStep (some (okLedger 2)) 3 7 (.normal true)
      (initSession ⟨[]⟩ 7)).exited = true ∧
    neverStepsAgain (some (okLedger 2)) 3 7
      (wsStep (some (okLedger 2)) 3 7 (.normal true) (initSession ⟨[]⟩ 7)) :=
  C2_notfound_single_error (okLedger 2) 3 ⟨[]⟩ 7 (by decide)

/-- C4: a Broadcaster cycle observing election count 12 fetches only
election ids 1 through 9, and no id greater than 9 is touched. -/
theorem C4_cycle_count12_caps_at_9 (L : Ledger) (m : ConnectionManager)
    (sendOk : Handle → Bool) (tick : Nat) (h : L.electionCount = 12) :
    (broadcastCycle (some L) m sendOk tick).fetched =
      ([1, 2, 3, 4, 5, 6, 7, 8, 9] : List Int) ∧
    ((broadcastCycle (some L) m sendOk tick).fetched.all
      (fun i => decide (i ≤ 9))) = true := by
  have hf : (broadcastCycle (some L) m sendOk tick).fetched =
      (List.range' 1 (min (L.electionCount + 1) 10 - 1)).map Int.ofNat := by
    show (if 0 < L.electionCount then _ else _ : CycleResult).fetched = _
    rw [if_pos (by omega)]
  rw [hf, h]
  constructor <;> decide

/-- Witness for C4 at a concrete 12-election ledger. -/
theorem C4_witness :
    (broadcastCycle (some (okLedger 12)) ⟨[]⟩ (fun _ => true) 0).fetched =
      ([1, 2, 3, 4, 5, 6, 7, 8, 9] : List Int) ∧
    ((broadcastCycle (some (okLedger 12)) ⟨[]⟩ (fun _ => true) 0).fetched.all
      (fun i => decide (i ≤ 9))) = true :=
  C4_cycle_count12_caps_at_9 (okLedger 12) ⟨[]⟩ (fun _ => true) 0 rfl

/-- C5: `broadcast` attempts delivery to every handle registered when the
call starts — each exactly once, in registration order — and afterwards
the registry holds exactly the starting handles whose send succeeded
(pruning happens after the iteration, via the collected failure list). -/
theorem C5_broadcast_delivers_and_prunes (m : ConnectionManager)
    (sendOk : Handle → Bool)
    (hnd : (m.active_connections.map Prod.fst).Nodup) :
    (m.broadcast sendOk).2 = m.active_connections.map Prod.fst ∧
    (m.broadcast sendOk).2.Nodup ∧
    (m.broadcast sendOk).1.active_connections =
      m.active_connections.filter (fun p => sendOk p.1) := by
  have hb : m.broadcast sendOk =
      ((((m.active_connections.filter (fun p => !sendOk p.1)).map
            Prod.fst).foldl (fun mm w => mm.disconnect w) m),
        m.active_connections.map Prod.fst) := by
    unfold ConnectionManager.broadcast
    rw [broadcast_scan]
    rfl
  refine ⟨by rw [hb], by rw [hb]; exact hnd, ?_⟩
  rw [hb, foldl_disconnect_conns]
  apply List.filter_congr
  intro p hp
  by_cases hs : sendOk p.1
  · have hnotin : p.1 ∉
        (m.active_connections.filter (fun q => !sendOk q.1)).map Prod.fst := by
      intro hmem
      obtain ⟨q, hq, hq1⟩ := List.mem_map.mp hmem
      have hq2 := (List.mem_filter.mp hq).2
      rw [hq1, hs] at hq2
      exact absurd hq2 (by decide)
    simp [hnotin, hs]
  · have hin : p.1 ∈
        (m.active_connections.filter (fun q => !sendOk q.1)).map Prod.fst :=
      List.mem_map_of_mem _
        (List.mem_filter.mpr ⟨hp, by simp [Bool.not_eq_true] at hs ⊢; exact hs⟩)
    simp [hin, Bool.not_eq_true] at hs ⊢
    exact hs

/-- Witness for C5: three registered handles, the middle send fails —
every handle is written once, and only the failing one is pruned. -/
theorem C5_witness :
    (ConnectionManager.broadcast ⟨[(1, true), (2, true), (3, true)]⟩
        (fun h => decide (h ≠ 2))).2 = [1, 2, 3] ∧
    (ConnectionManager.broadcast ⟨[(1, true), (2, true), (3, true)]⟩
        (fun h => decide (h ≠ 2))).2.Nodup ∧
    (ConnectionManager.broadcast ⟨[(1, true), (2, true), (3, true)]⟩
        (fun h => decide (h ≠ 2))).1.active_connections =
      [(1, true), (3, true)] :=
  C5_broadcast_delivers_and_prunes ⟨[(1, true), (2, true), (3, true)]⟩
    (fun h => decide (h ≠ 2)) (by decide)

/-- C6 (amended): for every session iteration whose bound election exists
and whose candidate read raises an empty-collection fault, the session
delivers the snapshot the fetcher returns — election fields populated from
the ledger read, an empty candidate sequence, and neither an error field
nor an informational note — and stays alive, so the feed keeps emitting
each cycle until disconnect.  (The loop's synthesized `Loading...`
placeholder with its `info` note is not reached on this path, because the
fetcher handles the fault internally and returns normally.) -/
theorem C6_emptystate_delivers_snapshot (L : Ledger) (eid : Int)
    (w : Handle) (s : SessionState) (ed : ElectionData) (msg : String)
    (h1 : 1 ≤ eid) (h2 : eid ≤ (L.electionCount : Int))
    (hel : L.getElection eid = .ok ed)
    (hcand : L.getElectionResults eid = .fail msg)
    (hm : findVal s.manager.active_connections w = some true)
    (ha : s.alive = true) (he : s.exited = false) :
    wsStep (some L) eid w (.normal true) s =
      { s with sent := s.sent ++ [resultsJson (pyElection ed) [] s.tick]
               fetches := s.fetches + 1
               sleeps := s.sleeps ++ [(2.5 : Rat)]
               tick := s.tick + 1 } ∧
    (resultsJson (pyElection ed) [] s.tick).hasKey "error" = false ∧
    (resultsJson (pyElection ed) [] s.tick).hasKey "info" = false ∧
    (resultsJson (pyElection ed) [] s.tick).get "candidates" =
      some (.arr []) ∧
    (resultsJson (pyElection ed) [] s.tick).get "election" =
      some (electionJson (pyElection ed)) := by
  have hmem : s.manager.member w = true := by
    simp [ConnectionManager.member, hm]
  have hsend :
      s.manager.send_personal_message w true = (s.manager, some true) := by
    unfold ConnectionManager.send_personal_message
    rw [hm]
    rfl
  have hfr := fetch_swallows_candidate_failure L eid ed msg h1 h2 hel hcand
  refine ⟨?_, rfl, rfl, rfl, rfl⟩
  unfold wsStep
  rw [he, ha]
  simp only [Bool.not_true, Bool.or_false, if_false]
  rw [hmem]
  simp only [Bool.not_true, Bool.false_eq_true, if_false]
  rw [if_pos ⟨by omega, h2⟩, hfr, hsend]
  rfl

/-- Witness for C6 at the spec's scenario: election 1 exists and its
candidate read raises the empty-collection fault. -/
theorem C6_witness :
    wsStep (some (emptyLedger 1)) 1 4 (.normal true)
        (initSession ⟨[]⟩ 4) =
      { initSession (⟨[]⟩ : ConnectionManager) 4 with
          sent := [resultsJson (pyElection (demoElection 1)) [] 0]
          fetches := 1
          sleeps := [(2.5 : Rat)]
          tick := 1 } ∧
    (resultsJson (pyElection (demoElection 1)) [] 0).hasKey "error" =
      false ∧
    (resultsJson (pyElection (demoElection 1)) [] 0).hasKey "info" =
      false ∧
    (resultsJson (pyElection (demoElection 1)) [] 0).get "candidates" =
      some (.arr []) ∧
    (resultsJson (pyElection (demoElection 1)) [] 0).get "election" =
      some (electionJson (pyElection (demoElection 1))) :=
  C6_emptystate_delivers_snapshot (emptyLedger 1) 1 4 (initSession ⟨[]⟩ 4)
    (demoElection 1) "VM Exception: numeric underflow or overflow detected"
    (by decide) (by decide) rfl rfl rfl rfl rfl

/-- Counterexample to C6 as stated: on the zero-candidate path the session
payload is NOT the synthesized placeholder — its election fields carry the
ledger's values (name "Board Election", not zeroed/"Loading...") and it
has no informational note. -/
theorem C6_counterexample :
    (wsStep (some (emptyLedger 1)) 1 4 (.normal true)
        (initSession ⟨[]⟩ 4)).sent =
      [resultsJson (pyElection (demoElection 1)) [] 0] ∧
    (resultsJson (pyElection (demoElection 1)) [] 0).hasKey "info" =
      false ∧
    (emptyResultJson 1 0).hasKey "info" = true ∧
    ((resultsJson (pyElection (demoElection 1)) [] 0).get "election" =
      some (electionJson (pyElection (demoElection 1)))) ∧
    (electionJson (pyElection (demoElection 1))).get "name" =
      some (.str "Board Election") ∧
    resultsJson (pyElection (demoElection 1)) [] 0 ≠ emptyResultJson 1 0 :=
  ⟨rfl, rfl, rfl, rfl, rfl, fun hc =>
    absurd (congrArg (fun j => j.hasKey "info") hc) (by decide)⟩

/-- C8: after the session's `finally` block runs, the handle is not
present in the registry; and unregistering is idempotent — removing an
already-absent handle leaves the registry unchanged (and raises
nothing, being a total function). -/
theorem C8_finally_unregisters (s : SessionState) (w : Handle) :
    (wsFinally w s).manager.member w = false ∧
    wsFinally w (wsFinally w s) = wsFinally w s ∧
    (s.manager.member w = false → s.manager.disconnect w = s.manager) := by
  refine ⟨member_disconnect_self _ _, ?_, fun h => disconnect_absent _ _ h⟩
  show ({ s with manager := (s.manager.disconnect w).disconnect w } :
      SessionState) = { s with manager := s.manager.disconnect w }
  rw [disconnect_idem]

/-- Witness for C8: a session holding handle 5; removing handle 9, which
is absent, changes nothing. -/
theorem C8_witness :
    (wsFinally 5 demoSession).manager.member 5 = false ∧
    demoSession.manager.disconnect 9 = demoSession.manager :=
  ⟨(C8_finally_unregisters demoSession 5).1,
   (C8_finally_unregisters demoSession 9).2.2 (by decide)⟩

/-- C9 (amended): every snapshot body returned by the fetcher has its
`status` field equal to `None` — `get_election_results` never populates it
from the ledger's `getElectionStatus` label. -/
theorem C9_status_always_none (L : Ledger) (eid : Int) (e : Election)
    (cs : List Candidate)
    (h : get_election_results (some L) eid = .results e cs) :
    e.status = none := by
  by_cases hr : eid < 1 ∨ eid > (L.electionCount : Int)
  · rw [fetch_out_of_range L eid hr] at h
    cases h
  · revert h
    show (if eid < 1 ∨ eid > (L.electionCount : Int) then _ else _) =
        FetchResult.results e cs → e.status = none
    rw [if_neg hr]
    cases hel : L.getElection eid with
    | fail msg =>
      show ((if containsSub msg underflowMark then
            FetchResult.results (fallbackElection eid) []
          else FetchResult.httpError 500 msg) =
          FetchResult.results e cs) → e.status = none
      by_cases hu : containsSub msg underflowMark
      · rw [if_pos hu]
        intro h
        cases h
        rfl
      · rw [if_neg hu]
        intro h
        cases h
    | ok ed =>
      intro h
      injection h with h1 h2
      rw [← h1]
      rfl

/-- Witness for C9: the snapshot of a healthy 1-election ledger. -/
theorem C9_witness : (pyElection (demoElection 1)).status = none :=
  C9_status_always_none (okLedger 1) 1 (pyElection (demoElection 1))
    (demoCandidates.map pyCandidate) rfl

/-- Counterexample to C9 as stated: the ledger reports status label
"Active" for election 1, yet the snapshot the fetcher returns carries
`status = None`. -/
theorem C9_counterexample :
    (get_election_results (some (okLedger 1)) 1).statusField = some none ∧
    (okLedger 1).getElectionStatus 1 = "Active" :=
  ⟨rfl, rfl⟩

/-- C10: sending a personal message to a handle that is not registered is
a silent no-op — no write is attempted, nothing is raised, and the
registry is unchanged. -/
theorem C10_send_unregistered_noop (m : ConnectionManager) (w : Handle)
    (sendOk : Bool) (h : m.member w = false) :
    m.send_personal_message w sendOk = (m, none) := by
  unfold ConnectionManager.member at h
  unfold ConnectionManager.send_personal_message
  cases hl : findVal m.active_connections w with
  | none => rfl
  | some b =>
    rw [hl] at h
    simp at h

/-- Witness for C10: handle 2 is not registered. -/
theorem C10_witness :
    ConnectionManager.send_personal_message ⟨[(1, true)]⟩ 2 true =
      (⟨[(1, true)]⟩, none) :=
  C10_send_unregistered_noop ⟨[(1, true)]⟩ 2 true (by decide)

end EVoting
